import Mathlib

/-!
Shallow embedding of the Connectly campaign-analysis pipeline (src/app.py)
and proofs of the specified properties.

Modelling conventions:
* A pandas timestamp column after `pd.to_datetime(_, errors='coerce')` is an
  `Option Timestamp` (NaT = `none`); the textual parsing itself is done by the
  external pandas library and is out of scope.
* The `link_clicks` column is an `Option String` (NaN/None = `none`).
* The external phone libraries (`phonenumbers`, `pycountry`) are abstract
  total functions supplied as parameters: `parse` may fail with a
  `NumberParseException` (modelled as `Except Unit`), `region` maps a parsed
  number to an optional region code, `lookup` maps an optional region code to
  an optional country record.
* A dataframe is a `List` of row structures; `groupby` keys are the
  first-occurrence deduplicated key values (pandas sorts keys, but group order
  is irrelevant to every property proved here).
-/

/-- A parsed timestamp value (the fields the pipeline reads). -/
structure Timestamp where
  year : Nat
  month : Nat
  day : Nat
  hour : Nat
deriving DecidableEq

/-- A country record as returned by the `pycountry` lookup. -/
structure Country where
  name : String
deriving DecidableEq

/-- A raw input row restricted to the required columns, with timestamp
columns already coerced (`pd.to_datetime(_, errors='coerce')`). -/
structure Row where
  customer_external_id : String
  campaign_name : String
  dispatched_at : Option Timestamp
  sent_at : Option Timestamp
  delivered_at : Option Timestamp
  read_at : Option Timestamp
  link_clicks : Option String
deriving DecidableEq

/-- Embeds `get_country` (src/app.py lines 10-18): parse `"+" ++ number`;
on a parse exception return "Invalid"; otherwise resolve the region code to a
country and return its name, or "Unknown" when the lookup yields nothing. -/
def get_country {P : Type} (parse : String → Except Unit P)
    (region : P → Option String) (lookup : Option String → Option Country)
    (phone_number : String) : String :=
  match parse ("+" ++ phone_number) with
  | .error _ => "Invalid"
  | .ok parsed_number =>
      match lookup (region parsed_number) with
      | some country => country.name
      | none => "Unknown"

/-- Zero-pad a natural number to two digits (month rendering). -/
def pad2 (n : Nat) : String :=
  if n < 10 then "0" ++ toString n else toString n

/-- Zero-pad a natural number to four digits (year rendering). -/
def pad4 (n : Nat) : String :=
  if n < 10 then "000" ++ toString n
  else if n < 100 then "00" ++ toString n
  else if n < 1000 then "0" ++ toString n
  else toString n

/-- Embeds `df[col].dt.to_period('M').astype(str)` applied to one cell:
a parsed timestamp renders as its calendar month "YYYY-MM"; NaT renders as
the literal string "NaT". -/
def monthStr : Option Timestamp → String
  | some t => pad4 t.year ++ "-" ++ pad2 t.month
  | none => "NaT"

/-- Embeds `df['Clicked'] = df['link_clicks'].notna() & (df['link_clicks'] != '')`
applied to one cell. -/
def clickedOf : Option String → Bool
  | some s => s ≠ ""
  | none => false

/-- English weekday name of a date by Zeller's congruence, embedding
`dt.day_name()` for one parsed timestamp. -/
def dayName (t : Timestamp) : String :=
  let m := if t.month ≤ 2 then t.month + 12 else t.month
  let y := if t.month ≤ 2 then t.year - 1 else t.year
  let h := (t.day + (13 * (m + 1)) / 5 + y % 100 + (y % 100) / 4
            + (y / 100) / 4 + 5 * (y / 100)) % 7
  match h with
  | 0 => "Saturday"
  | 1 => "Sunday"
  | 2 => "Monday"
  | 3 => "Tuesday"
  | 4 => "Wednesday"
  | 5 => "Thursday"
  | _ => "Friday"

/-- An enriched row: the raw columns plus the derived columns added in
src/app.py lines 33-63. -/
structure Enriched where
  customer_external_id : String
  campaign_name : String
  dispatched_at : Option Timestamp
  sent_at : Option Timestamp
  delivered_at : Option Timestamp
  read_at : Option Timestamp
  link_clicks : Option String
  Country : String
  Clicked : Bool
  read_day : Option String
  read_hour : Option Nat
  dispatched_month : String
  sent_month : String
  delivered_month : String
  read_month : String
  clicked_month : String
deriving DecidableEq

/-- Embeds the enrichment stage (src/app.py lines 33-63) on one row. -/
def enrich {P : Type} (parse : String → Except Unit P)
    (region : P → Option String) (lookup : Option String → Option Country)
    (r : Row) : Enriched :=
  { customer_external_id := r.customer_external_id
    campaign_name := r.campaign_name
    dispatched_at := r.dispatched_at
    sent_at := r.sent_at
    delivered_at := r.delivered_at
    read_at := r.read_at
    link_clicks := r.link_clicks
    Country := get_country parse region lookup r.customer_external_id
    Clicked := clickedOf r.link_clicks
    read_day := r.read_at.map dayName
    read_hour := r.read_at.map (fun t => t.hour)
    dispatched_month := monthStr r.dispatched_at
    sent_month := monthStr r.sent_at
    delivered_month := monthStr r.delivered_at
    read_month := monthStr r.read_at
    clicked_month := monthStr r.dispatched_at }

/-- The preset default country selection (src/app.py line 66). -/
def preset_countries : List String :=
  ["Egypt", "Kuwait", "United Arab Emirates", "Iraq", "Bahrain",
   "Jordan", "Oman", "Qatar"]

/-- Embeds `df[c].unique()`: the distinct values of a column in first
occurrence order. -/
def uniqueVals (df : List Enriched) (f : Enriched → String) : List String :=
  (df.map f).dedup

/-- Embeds `filtered_df` (src/app.py lines 71-75): keep rows whose Country,
dispatched_month and campaign_name each lie in the corresponding selection. -/
def filtered_df (df : List Enriched) (selC selM selG : List String) :
    List Enriched :=
  df.filter fun r =>
    decide (r.Country ∈ selC) && decide (r.dispatched_month ∈ selM) &&
      decide (r.campaign_name ∈ selG)

/-- One row of the aggregate produced by the country group-by. -/
structure FunnelRow where
  Country : String
  Dispatched : Nat
  Sent : Nat
  Delivered : Nat
  Read : Nat
  Clicked : Nat
deriving DecidableEq

/-- Pandas `'count'` aggregator on a timestamp column: the number of
non-null entries of the group. -/
def countAgg (g : List Enriched) (f : Enriched → Option Timestamp) : Nat :=
  g.countP fun r => (f r).isSome

/-- The explicit `lambda x: x.notna().sum()` aggregator used for the
Delivered column: sum of the 0/1 indicators of non-nullness. -/
def deliveredAgg (g : List Enriched) : Nat :=
  (g.map fun r => if r.delivered_at.isSome then 1 else 0).sum

/-- Pandas `'sum'` aggregator on the boolean Clicked column. -/
def clickedAgg (g : List Enriched) : Nat :=
  (g.map fun r => if r.Clicked then 1 else 0).sum

/-- The rows of one country group. -/
def groupOf (df : List Enriched) (c : String) : List Enriched :=
  df.filter fun r => decide (r.Country = c)

/-- Embeds `funnel_data` (src/app.py lines 78-84): group by Country and
aggregate the five funnel counts. -/
def funnel_data (df : List Enriched) : List FunnelRow :=
  (df.map fun r => r.Country).dedup.map fun c =>
    { Country := c
      Dispatched := countAgg (groupOf df c) (fun r => r.dispatched_at)
      Sent := countAgg (groupOf df c) (fun r => r.sent_at)
      Delivered := deliveredAgg (groupOf df c)
      Read := countAgg (groupOf df c) (fun r => r.read_at)
      Clicked := clickedAgg (groupOf df c) }

/-- The required columns (src/app.py line 28). -/
def required_columns : List String :=
  ["customer_external_id", "campaign_name", "dispatched_at", "sent_at",
   "delivered_at", "read_at", "link_clicks"]

/-- The schema-error message (src/app.py line 30). -/
def schemaErrorMsg : String :=
  "CSV file does not contain required columns. Please check your file."

/-- Embeds the guarded pipeline (src/app.py lines 28-84): if any required
column is missing, only the error is produced; otherwise the enriched,
filtered and aggregated tables are produced. -/
def process {P : Type} (parse : String → Except Unit P)
    (region : P → Option String) (lookup : Option String → Option Country)
    (cols : List String) (rows : List Row) (selC selM selG : List String) :
    Except String (List Enriched × List Enriched × List FunnelRow) :=
  if required_columns.all (fun c => decide (c ∈ cols)) then
    let enriched := rows.map (enrich parse region lookup)
    let filt := filtered_df enriched selC selM selG
    .ok (enriched, filt, funnel_data filt)
  else
    .error schemaErrorMsg

/-- Modelled from the spec: an aggregate row keyed by (country, campaign,
month) with the four funnel metrics carrying month-over-month columns
(spec section 3, "Trend row"); the Trend Calculator itself is absent from
src/app.py (it belongs to another variant of the script). -/
structure AggRow where
  country : String
  campaign : String
  month : String
  Dispatched : Nat
  Sent : Nat
  Read : Nat
  Clicked : Nat
deriving DecidableEq

/-- Modelled from the spec: an aggregate row augmented with the four
percentage-change columns (spec section 3). -/
structure TrendRow where
  country : String
  campaign : String
  month : String
  Dispatched : Nat
  Sent : Nat
  Read : Nat
  Clicked : Nat
  Dispatched_MoM : Rat
  Sent_MoM : Rat
  Read_MoM : Rat
  Clicked_MoM : Rat
deriving DecidableEq

/-- Modelled from the spec: one month-over-month step,
`(v - prev) / prev * 100`, clamped to 0 when the prior value is 0
(spec section 4.5). -/
def momNext (prev v : Nat) : Rat :=
  if prev = 0 then 0 else ((v : Rat) - (prev : Rat)) / (prev : Rat) * 100

/-- Insert an aggregate row into a month-sorted list (ascending month). -/
def insertByMonth (r : AggRow) : List AggRow → List AggRow
  | [] => [r]
  | x :: xs =>
      if (compare r.month x.month).isLE then r :: x :: xs
      else x :: insertByMonth r xs

/-- Sort a series of aggregate rows by month ascending (insertion sort). -/
def sortByMonth : List AggRow → List AggRow
  | [] => []
  | r :: rs => insertByMonth r (sortByMonth rs)

/-- Build a trend row from an aggregate row and its four MoM values. -/
def mkTrend (r : AggRow) (dm sm rm cm : Rat) : TrendRow :=
  { country := r.country, campaign := r.campaign, month := r.month
    Dispatched := r.Dispatched, Sent := r.Sent, Read := r.Read
    Clicked := r.Clicked
    Dispatched_MoM := dm, Sent_MoM := sm, Read_MoM := rm, Clicked_MoM := cm }

/-- Modelled from the spec: attach MoM columns to the non-first rows of a
month-sorted series, each computed from the preceding row
(spec section 4.5). -/
def attachMoMAux (prev : AggRow) : List AggRow → List TrendRow
  | [] => []
  | r :: rest =>
      mkTrend r (momNext prev.Dispatched r.Dispatched)
        (momNext prev.Sent r.Sent) (momNext prev.Read r.Read)
        (momNext prev.Clicked r.Clicked) :: attachMoMAux r rest

/-- Modelled from the spec: attach MoM columns to a month-sorted series;
the chronologically first row has no prior value and gets 0 in all four
columns (spec section 4.5). -/
def attachMoM : List AggRow → List TrendRow
  | [] => []
  | r :: rest => mkTrend r 0 0 0 0 :: attachMoMAux r rest

/-- Modelled from the spec: the (country, campaign) series of an aggregate
table, sorted by month ascending, with MoM columns attached
(spec sections 4.5 and 3). -/
def trendSeries (rows : List AggRow) (c g : String) : List TrendRow :=
  attachMoM (sortByMonth (rows.filter fun r =>
    decide (r.country = c) && decide (r.campaign = g)))

/-- Sum of an if-indicator over a list with no duplicates: when `a` occurs
in the list, the sum picks up `n` exactly once. -/
lemma sum_map_ite_eq {keys : List String} {a : String} (n : Nat)
    (hnd : keys.Nodup) (ha : a ∈ keys) :
    (keys.map fun c => if a = c then n else 0).sum = n := by
  induction keys with
  | nil => cases ha
  | cons k ks ih =>
      rcases List.mem_cons.mp ha with h | h
      · subst h
        have hnot : a ∉ ks := (List.nodup_cons.mp hnd).1
        have hz : (ks.map fun c => if a = c then n else 0).sum = 0 := by
          apply List.sum_eq_zero
          intro x hx
          rcases List.mem_map.mp hx with ⟨c, hc, rfl⟩
          have : a ≠ c := fun hac => hnot (hac ▸ hc)
          simp [this]
        simp [hz]
      · have hk : a ≠ k := by
          rintro rfl
          exact (List.nodup_cons.mp hnd).1 h
        have := ih (List.nodup_cons.mp hnd).2 h
        simp [hk, this]

/-- Sum over a list of a pointwise sum of two Nat-valued functions. -/
lemma sum_map_add_nat (l : List String) (f g : String → Nat) :
    (l.map fun c => f c + g c).sum = (l.map f).sum + (l.map g).sum := by
  induction l with
  | nil => simp
  | cons x xs ih => simp [ih]; omega

/-- Partition lemma: summing the `countP p` of each key-group over a
duplicate-free key list covering all rows recovers `countP p` of the whole
list. -/
lemma sum_group_countP (key : Enriched → String) (p : Enriched → Bool)
    (keys : List String) (hnd : keys.Nodup) :
    ∀ rows : List Enriched, (∀ r ∈ rows, key r ∈ keys) →
      (keys.map fun c =>
        (rows.filter fun r => decide (key r = c)).countP p).sum
        = rows.countP p := by
  intro rows
  induction rows with
  | nil => intro _; simp
  | cons r rest ih =>
      intro hcov
      have hterm : ∀ c : String,
          ((r :: rest).filter fun x => decide (key x = c)).countP p
            = (rest.filter fun x => decide (key x = c)).countP p
              + (if key r = c then (if p r then 1 else 0) else 0) := by
        intro c
        by_cases h : key r = c
        · simp [List.filter_cons, h, List.countP_cons, Nat.add_comm]
        · simp [List.filter_cons, h]
      have hrest : ∀ x ∈ rest, key x ∈ keys := fun x hx =>
        hcov x (List.mem_cons_of_mem _ hx)
      calc (keys.map fun c =>
              ((r :: rest).filter fun x => decide (key x = c)).countP p).sum
          = (keys.map fun c =>
              (rest.filter fun x => decide (key x = c)).countP p
                + (if key r = c then (if p r then 1 else 0) else 0)).sum := by
            simp only [hterm]
        _ = (keys.map fun c =>
              (rest.filter fun x => decide (key x = c)).countP p).sum
              + (keys.map fun c =>
                  if key r = c then (if p r then 1 else 0) else 0).sum := by
            exact sum_map_add_nat keys _ _
        _ = rest.countP p + (if p r then 1 else 0) := by
            rw [ih hrest,
              sum_map_ite_eq (if p r then 1 else 0) hnd
                (hcov r (List.mem_cons_self r rest))]
        _ = (r :: rest).countP p := by
            simp [List.countP_cons]

/-- Sum of 0/1 indicators of a Bool-valued predicate equals `countP`. -/
lemma sum_indicator_eq_countP (g : List Enriched) (q : Enriched → Bool) :
    (g.map fun r => if q r then 1 else 0).sum = g.countP q := by
  induction g with
  | nil => simp
  | cons r rest ih =>
      by_cases h : q r
      · simp [List.countP_cons, h, ih]
        omega
      · simp [List.countP_cons, h, ih]

/-- A phone library whose parser always fails (every identifier invalid). -/
def libParse0 : String → Except Unit Unit := fun _ => .error ()

/-- A region resolver that never resolves. -/
def libRegion0 : Unit → Option String := fun _ => none

/-- A country lookup that never finds a country. -/
def libLookup0 : Option String → Option Country := fun _ => none

/-- A concrete raw row used to instantiate universally quantified results. -/
def sampleRow : Row :=
  { customer_external_id := "20100000000"
    campaign_name := "Promo"
    dispatched_at := some { year := 2024, month := 2, day := 1, hour := 0 }
    sent_at := none
    delivered_at := none
    read_at := none
    link_clicks := none }

/-- The concrete enriched row obtained from `sampleRow` under the failing
phone library (its Country is "Invalid"). -/
def sampleEnriched : Enriched := enrich libParse0 libRegion0 libLookup0 sampleRow

/-- C3: country resolution totality: for every identifier string,
`get_country` returns either the sentinel "Invalid" (the parse of the
"+"-prefixed identifier failed), the sentinel "Unknown" (parse succeeded but
the region lookup yielded no country), or the name of the country the lookup
found; being a total Lean function it never returns null and never raises. -/
theorem get_country_total {P : Type} (parse : String → Except Unit P)
    (region : P → Option String) (lookup : Option String → Option Country)
    (s : String) :
    (parse ("+" ++ s) = .error () ∧
      get_country parse region lookup s = "Invalid") ∨
    (∃ pn : P, parse ("+" ++ s) = .ok pn ∧ lookup (region pn) = none ∧
      get_country parse region lookup s = "Unknown") ∨
    (∃ pn : P, ∃ c : Country, parse ("+" ++ s) = .ok pn ∧
      lookup (region pn) = some c ∧
      get_country parse region lookup s = c.name) := by
  cases hp : parse ("+" ++ s) with
  | error e => exact Or.inl ⟨rfl, by simp [get_country, hp]⟩
  | ok pn =>
      cases hl : lookup (region pn) with
      | none => exact Or.inr (Or.inl ⟨pn, rfl, hl, by simp [get_country, hp, hl]⟩)
      | some c =>
          exact Or.inr (Or.inr ⟨pn, c, rfl, hl, by simp [get_country, hp, hl]⟩)

/-- C4: click flag: for every row, the derived Clicked value is true iff the
link_clicks field is present and not the empty string; the literal strings
"0" and "false" give Clicked = true. -/
theorem clicked_flag {P : Type} (parse : String → Except Unit P)
    (region : P → Option String) (lookup : Option String → Option Country)
    (r : Row) :
    ((enrich parse region lookup r).Clicked = true ↔
      r.link_clicks.isSome = true ∧ r.link_clicks ≠ some "") ∧
    clickedOf (some "0") = true ∧ clickedOf (some "false") = true := by
  refine ⟨?_, by decide, by decide⟩
  cases h : r.link_clicks with
  | none => simp [enrich, clickedOf, h]
  | some s => simp [enrich, clickedOf, h]

/-- C7: month-bucket sentinel: each of the four month columns (and the
clicked-month column) is the "YYYY-MM" rendering of the calendar month of a
parsed timestamp and the literal string "NaT" for a null one, and these
strings participate in filtering as ordinary category values (membership in
the selected-month set). -/
theorem month_bucket {P : Type} (parse : String → Except Unit P)
    (region : P → Option String) (lookup : Option String → Option Country)
    (r : Row) (t : Timestamp) :
    (enrich parse region lookup r).dispatched_month = monthStr r.dispatched_at ∧
    (enrich parse region lookup r).sent_month = monthStr r.sent_at ∧
    (enrich parse region lookup r).delivered_month = monthStr r.delivered_at ∧
    (enrich parse region lookup r).read_month = monthStr r.read_at ∧
    (enrich parse region lookup r).clicked_month = monthStr r.dispatched_at ∧
    monthStr (some t) = pad4 t.year ++ "-" ++ pad2 t.month ∧
    monthStr none = "NaT" ∧
    (∀ (df : List Enriched) (selC selM selG : List String) (x : Enriched),
      x ∈ filtered_df df selC selM selG ↔
        x ∈ df ∧ x.Country ∈ selC ∧ x.dispatched_month ∈ selM ∧
          x.campaign_name ∈ selG) := by
  refine ⟨rfl, rfl, rfl, rfl, rfl, rfl, rfl, ?_⟩
  intro df selC selM selG x
  simp [filtered_df, List.mem_filter, and_assoc]

/-- C8: an empty selection on any one of the three filter dimensions makes
the filtered table empty. -/
theorem empty_selection (df : List Enriched) (selC selM selG : List String)
    (h : selC = [] ∨ selM = [] ∨ selG = []) :
    filtered_df df selC selM selG = [] := by
  apply List.filter_eq_nil_iff.mpr
  intro a _
  rcases h with rfl | rfl | rfl <;> simp

/-- Witness for C8 at a concrete table and an empty country selection. -/
theorem empty_selection_witness :
    filtered_df [sampleEnriched] [] ["2024-02"] ["Promo"] = [] :=
  empty_selection [sampleEnriched] [] ["2024-02"] ["Promo"] (Or.inl rfl)

/-- C10: the filter is a pure row subset: the filtered table is a sublist of
the enriched table (so each filtered row is a row of the enriched table with
at most its original multiplicity), and in particular every filtered row is
a member of the enriched table; the enriched table itself is a value the
filter never mutates. -/
theorem filter_subset (df : List Enriched) (selC selM selG : List String) :
    (filtered_df df selC selM selG).Sublist df ∧
    ∀ r ∈ filtered_df df selC selM selG, r ∈ df :=
  ⟨List.filter_sublist df, fun _ hr => (List.mem_filter.mp hr).1⟩

/-- C2: schema gate: when at least one required column is missing the
pipeline yields only the schema error, and when all required columns are
present (extra columns allowed) it yields the enriched, filtered and
aggregated tables. -/
theorem schema_gate {P : Type} (parse : String → Except Unit P)
    (region : P → Option String) (lookup : Option String → Option Country)
    (cols : List String) (rows : List Row) (selC selM selG : List String) :
    ((∃ c ∈ required_columns, c ∉ cols) →
      process parse region lookup cols rows selC selM selG
        = .error schemaErrorMsg) ∧
    ((∀ c ∈ required_columns, c ∈ cols) →
      process parse region lookup cols rows selC selM selG
        = .ok (rows.map (enrich parse region lookup),
            filtered_df (rows.map (enrich parse region lookup)) selC selM selG,
            funnel_data (filtered_df (rows.map (enrich parse region lookup))
              selC selM selG))) := by
  constructor
  · rintro ⟨c, hc, hnc⟩
    have hall : (required_columns.all fun c => decide (c ∈ cols)) = false := by
      rw [Bool.eq_false_iff]
      intro h
      rw [List.all_eq_true] at h
      exact hnc (by simpa using h c hc)
    simp [process, hall]
  · intro h
    have hall : (required_columns.all fun c => decide (c ∈ cols)) = true := by
      simp only [List.all_eq_true, decide_eq_true_eq]
      exact h
    simp [process, hall]

/-- Witness for C2: with no columns the pipeline errors; with exactly the
required columns (and no rows) it succeeds with empty tables. -/
theorem schema_gate_witness :
    process libParse0 libRegion0 libLookup0 [] [] [] [] []
      = .error schemaErrorMsg ∧
    process libParse0 libRegion0 libLookup0 required_columns [] [] [] []
      = .ok ([], [], []) := by
  constructor
  · exact (schema_gate libParse0 libRegion0 libLookup0 [] [] [] [] []).1
      ⟨"customer_external_id", by decide, by simp⟩
  · have h := (schema_gate libParse0 libRegion0 libLookup0
      required_columns [] [] [] []).2 (fun c hc => hc)
    simpa [filtered_df, funnel_data] using h

/-- C9: delivered-count equivalence: on every country group of every table,
the explicit non-null-indicator-sum aggregator used for the Delivered column
equals the generic non-null counter used for Dispatched, Sent and Read
applied to the delivered column. -/
theorem delivered_equiv (df : List Enriched) (c : String) :
    deliveredAgg (groupOf df c) = countAgg (groupOf df c)
      (fun r => r.delivered_at) :=
  sum_indicator_eq_countP (groupOf df c) (fun r => r.delivered_at.isSome)

/-- Congruence of summed maps under pointwise equality of the mapped
functions. -/
lemma map_sum_congr (keys : List String) (f g : String → Nat)
    (h : ∀ c, f c = g c) : (keys.map f).sum = (keys.map g).sum := by
  rw [show f = g from funext h]

/-- Conservation of all five funnel aggregates over any grouped table. -/
lemma funnel_conservation_aux (df : List Enriched) :
    ((funnel_data df).map fun fr => fr.Dispatched).sum
        = df.countP (fun r => r.dispatched_at.isSome) ∧
    ((funnel_data df).map fun fr => fr.Sent).sum
        = df.countP (fun r => r.sent_at.isSome) ∧
    ((funnel_data df).map fun fr => fr.Delivered).sum
        = df.countP (fun r => r.delivered_at.isSome) ∧
    ((funnel_data df).map fun fr => fr.Read).sum
        = df.countP (fun r => r.read_at.isSome) ∧
    ((funnel_data df).map fun fr => fr.Clicked).sum
        = df.countP (fun r => r.Clicked) := by
  have hnd : ((df.map fun r => r.Country).dedup).Nodup := List.nodup_dedup _
  have hcov : ∀ r ∈ df, r.Country ∈ (df.map fun r => r.Country).dedup :=
    fun r hr => List.mem_dedup.mpr (List.mem_map_of_mem _ hr)
  refine ⟨?_, ?_, ?_, ?_, ?_⟩
  · rw [funnel_data, List.map_map]
    exact sum_group_countP (fun r => r.Country)
      (fun r => r.dispatched_at.isSome) _ hnd df hcov
  · rw [funnel_data, List.map_map]
    exact sum_group_countP (fun r => r.Country)
      (fun r => r.sent_at.isSome) _ hnd df hcov
  · rw [funnel_data, List.map_map]
    have he : ∀ c : String, deliveredAgg (groupOf df c)
        = (groupOf df c).countP fun r => r.delivered_at.isSome :=
      fun c => sum_indicator_eq_countP _ _
    refine Eq.trans (map_sum_congr _ _ _ he) ?_
    exact sum_group_countP (fun r => r.Country)
      (fun r => r.delivered_at.isSome) _ hnd df hcov
  · rw [funnel_data, List.map_map]
    exact sum_group_countP (fun r => r.Country)
      (fun r => r.read_at.isSome) _ hnd df hcov
  · rw [funnel_data, List.map_map]
    have he : ∀ c : String, clickedAgg (groupOf df c)
        = (groupOf df c).countP fun r => r.Clicked :=
      fun c => sum_indicator_eq_countP _ _
    refine Eq.trans (map_sum_congr _ _ _ he) ?_
    exact sum_group_countP (fun r => r.Country)
      (fun r => r.Clicked) _ hnd df hcov

/-- C1: aggregation conservation: for every table and filter selection, the
column sums of the country aggregate equal the corresponding non-null (or
clicked) row counts of the filtered table. -/
theorem funnel_conservation (rows : List Enriched)
    (selC selM selG : List String) :
    ((funnel_data (filtered_df rows selC selM selG)).map
        fun fr => fr.Dispatched).sum
      = (filtered_df rows selC selM selG).countP
          (fun r => r.dispatched_at.isSome) ∧
    ((funnel_data (filtered_df rows selC selM selG)).map
        fun fr => fr.Sent).sum
      = (filtered_df rows selC selM selG).countP
          (fun r => r.sent_at.isSome) ∧
    ((funnel_data (filtered_df rows selC selM selG)).map
        fun fr => fr.Delivered).sum
      = (filtered_df rows selC selM selG).countP
          (fun r => r.delivered_at.isSome) ∧
    ((funnel_data (filtered_df rows selC selM selG)).map
        fun fr => fr.Read).sum
      = (filtered_df rows selC selM selG).countP
          (fun r => r.read_at.isSome) ∧
    ((funnel_data (filtered_df rows selC selM selG)).map
        fun fr => fr.Clicked).sum
      = (filtered_df rows selC selM selG).countP (fun r => r.Clicked) :=
  funnel_conservation_aux (filtered_df rows selC selM selG)

/-- Counterexample for C6: a one-row enriched table whose Country is
"Invalid" (the identifier does not parse) is not preserved by the filter
under the default selections, because the default country selection is the
preset list, which does not contain "Invalid". -/
theorem filter_defaults_counterexample :
    filtered_df [sampleEnriched] preset_countries
      (uniqueVals [sampleEnriched] fun r => r.dispatched_month)
      (uniqueVals [sampleEnriched] fun r => r.campaign_name)
      ≠ [sampleEnriched] := by decide

/-- C6 (amended): filtering with the default selections (the preset country
list, all observed dispatched months, all observed campaigns) keeps exactly
the rows whose Country lies in the preset list; the month and campaign
defaults never drop a row. -/
theorem filter_defaults_amended (df : List Enriched) :
    filtered_df df preset_countries
      (uniqueVals df fun r => r.dispatched_month)
      (uniqueVals df fun r => r.campaign_name)
      = df.filter fun r => decide (r.Country ∈ preset_countries) := by
  unfold filtered_df
  apply List.filter_congr
  intro x hx
  have h1 : x.dispatched_month ∈ uniqueVals df fun r => r.dispatched_month :=
    List.mem_dedup.mpr (List.mem_map_of_mem _ hx)
  have h2 : x.campaign_name ∈ uniqueVals df fun r => r.campaign_name :=
    List.mem_dedup.mpr (List.mem_map_of_mem _ hx)
  simp [h1, h2]

/-- A concrete aggregate row used to instantiate the trend theorem. -/
def aggSample : AggRow :=
  { country := "Egypt", campaign := "Promo", month := "2024-01"
    Dispatched := 1, Sent := 1, Read := 1, Clicked := 1 }

/-- C5: trend first-period invariant: in every (country, campaign) series of
the trend table, the chronologically first row carries exactly 0 in all four
month-over-month columns. -/
theorem trend_first_zero (rows : List AggRow) (c g : String)
    (tr : TrendRow) (rest : List TrendRow)
    (h : trendSeries rows c g = tr :: rest) :
    tr.Dispatched_MoM = 0 ∧ tr.Sent_MoM = 0 ∧ tr.Read_MoM = 0 ∧
      tr.Clicked_MoM = 0 := by
  unfold trendSeries at h
  cases hs : sortByMonth (rows.filter fun r =>
      decide (r.country = c) && decide (r.campaign = g)) with
  | nil => rw [hs] at h; simp [attachMoM] at h
  | cons a as =>
      rw [hs] at h
      have : mkTrend a 0 0 0 0 = tr := by
        have := h
        simp [attachMoM] at this
        exact this.1
      rw [← this]
      exact ⟨rfl, rfl, rfl, rfl⟩

/-- Witness for C5: the singleton Egypt/Promo series has MoM columns 0 in
its first (and only) row. -/
theorem trend_first_zero_witness :
    (mkTrend aggSample 0 0 0 0).Dispatched_MoM = 0 ∧
    (mkTrend aggSample 0 0 0 0).Sent_MoM = 0 ∧
    (mkTrend aggSample 0 0 0 0).Read_MoM = 0 ∧
    (mkTrend aggSample 0 0 0 0).Clicked_MoM = 0 :=
  trend_first_zero [aggSample] "Egypt" "Promo" (mkTrend aggSample 0 0 0 0) []
    (by decide)
